import Mathlib

/-!
Verification development for the cohydra testbed command-execution core
(`testbed/command_executor/ssh.py`) and the WiFi channel construction
(`testbed/channel/wifi.py`).

The SSH executor is embedded shallowly: the deterministic sequence of
statements in `SSHCommandExecutor.execute` becomes a pure function from the
request (command, user, shell, sudo flag) and the channel behaviour (the two
output streams and the remote exit status) to a record of everything
observable: the submitted command line, the trace of channel events, the
actions performed on each log sink, and what is raised to the caller.

The shell-argument codec lives in `testbed/command_executor/util.py`, which is
not part of the sources at hand; it is modelled from the specification.
-/

/- Characters written via code points to keep quoting logic readable. -/

def squoteChar : Char := Char.ofNat 39

def dquoteChar : Char := Char.ofNat 34

def spaceChar : Char := Char.ofNat 32

def tabChar : Char := Char.ofNat 9

def nlChar : Char := Char.ofNat 10

/-- Modelled from the spec: the shell-argument codec quotes a token so that
re-splitting yields it back; tokens made only of shell-safe characters are
left untouched (so `stringify(["echo","hi"]) = "echo hi"`), all others are
wrapped in single quotes (so `"echo hi"` becomes `'echo hi'`), with embedded
single quotes escaped. This follows the behaviour of `shlex.quote`, which the
missing `util.py` uses. -/
def isSafeChar (c : Char) : Bool :=
  c.isAlphanum || c = '@' || c = '%' || c = '+' || c = '=' || c = ':' ||
    c = ',' || c = '.' || c = '/' || c = '-' || c = '_'

/-- Modelled from the spec: quoting of one token (see `isSafeChar`). -/
def quoteToken (s : String) : String :=
  if s.length ≠ 0 && s.data.all isSafeChar then s
  else
    String.mk (squoteChar ::
      (s.data.map (fun c =>
        if c = squoteChar then
          [squoteChar, dquoteChar, squoteChar, dquoteChar, squoteChar]
        else [c])).flatten ++ [squoteChar])

/-- Modelled from the spec: `stringify` quotes each token and joins with
single spaces. -/
def stringifyTokens (ts : List String) : String :=
  String.intercalate (String.mk [spaceChar]) (ts.map quoteToken)

/-- A command as accepted by `execute`: either a single pre-joined line or a
sequence of argument tokens (spec §3, Data Model: Command). -/
inductive ShellArgs
  | str (s : String)
  | toks (ts : List String)
deriving DecidableEq

/-- Modelled from the spec: `util.stringify_shell_arguments` stringifies a
token sequence into a single command line; a value that is already a single
pre-joined line passes through unchanged. -/
def stringify_shell_arguments : ShellArgs → String
  | .str s => s
  | .toks ts => stringifyTokens ts

/-- Scanner state for shell-word splitting. -/
inductive SplitMode
  | normal
  | single
  | double
deriving DecidableEq

/-- Modelled from the spec: the core of `split`, shell-word-splitting rules:
whitespace separates words, single or double quotes group characters into the
current word. The accumulator holds the current word (reversed) when one is in
progress. -/
def splitChars : List Char → SplitMode → Option (List Char) → List (List Char)
  | [], _, none => []
  | [], _, some w => [w.reverse]
  | c :: rest, .normal, acc =>
    if c = spaceChar || c = tabChar || c = nlChar then
      match acc with
      | none => splitChars rest .normal none
      | some w => w.reverse :: splitChars rest .normal none
    else if c = squoteChar then splitChars rest .single (some (acc.getD []))
    else if c = dquoteChar then splitChars rest .double (some (acc.getD []))
    else splitChars rest .normal (some (c :: acc.getD []))
  | c :: rest, .single, acc =>
    if c = squoteChar then splitChars rest .normal (some (acc.getD []))
    else splitChars rest .single (some (c :: acc.getD []))
  | c :: rest, .double, acc =>
    if c = dquoteChar then splitChars rest .normal (some (acc.getD []))
    else splitChars rest .double (some (c :: acc.getD []))

/-- Modelled from the spec: `util.split_shell_arguments`, the inverse codec
operation splitting a previously stringified line back into tokens. -/
def split_shell_arguments (s : String) : List String :=
  (splitChars s.data .normal none).map String.mk

/-- The elevation-composition algorithm of `SSHCommandExecutor.execute`
(ssh.py lines 29-45), statement by statement: the command is stringified
first; with no user it is optionally shell-wrapped; with a user the sudo or
su prefix is built, `["-s", shell]` appended when a shell is given, and the
strategy-specific suffix appended last. -/
def composeCommand (command : ShellArgs) (user : Option String)
    (shell : Option String) (useSudo : Bool) : ShellArgs :=
  let cmd := stringify_shell_arguments command
  match user with
  | none =>
    match shell with
    | none => .str cmd
    | some sh => .toks [sh, "-c", cmd]
  | some u =>
    let pair :=
      if useSudo then (["sudo", "-u", u], split_shell_arguments cmd)
      else (["su", u], ["-c", cmd])
    let pre :=
      match shell with
      | none => pair.1
      | some sh => pair.1 ++ ["-s", sh]
    .toks (pre ++ pair.2)

/-- The single command line handed to `client.exec_command` (ssh.py line 47:
one more `stringify_shell_arguments` before submission). -/
def submittedLine (command : ShellArgs) (user : Option String)
    (shell : Option String) (useSudo : Bool) : String :=
  stringify_shell_arguments (composeCommand command user shell useSudo)

/-- Logging severities used by `execute`: `logging.INFO` for the stdout pump
and `logging.ERROR` for the stderr pump (ssh.py lines 52-53). -/
inductive Level
  | info
  | error
deriving DecidableEq

/-- One event on a raw output stream as observed by the reading pump: a
complete line, or an I/O error raised by the read. -/
inductive StreamItem
  | line (s : String)
  | ioError
deriving DecidableEq

/-- An action performed on a log sink: acquiring the destination, writing one
record at a severity, releasing (flush and close) the destination. -/
inductive SinkAction
  | acquire
  | write (lv : Level) (s : String)
  | release
deriving DecidableEq

/-- The body of `log_file` (ssh.py lines 10-11): the `for line in file` loop
writing each line to the sink at the fixed severity. It stops at end of
stream, or is interrupted when the read raises, in which case the Bool result
is `true` (an exception escaped the loop). -/
def pumpBody (lv : Level) : List StreamItem → List SinkAction × Bool
  | [] => ([], false)
  | .line s :: rest =>
    let r := pumpBody lv rest
    (.write lv s :: r.1, r.2)
  | .ioError :: _ => ([], true)

/-- `log_file` (ssh.py lines 8-11): the loop body runs inside
`with file, util.LogFile(logger, logfile) as log`, so the sink is acquired
before the loop and released on every exit path, normal or exceptional
(Python `with` semantics). Returns the sink-action trace of this pump and
whether an exception escaped its loop. -/
def log_file (lv : Level) (file : List StreamItem) : List SinkAction × Bool :=
  let r := pumpBody lv file
  (SinkAction.acquire :: r.1 ++ [SinkAction.release], r.2)

/-- The records a sink receives: the writes in its action trace, in order. -/
def sinkRecords (as : List SinkAction) : List (Level × String) :=
  as.filterMap fun a =>
    match a with
    | .write lv s => some (lv, s)
    | _ => none

/-- Which output stream of the channel a pump drains. -/
inductive StreamId
  | stdout
  | stderr
deriving DecidableEq

/-- The channel-level events of one `execute` invocation, in the order the
statements of ssh.py lines 47-59 perform them. -/
inductive ExecEvent
  | openChannel
  | closeStdin
  | startPump (sid : StreamId)
  | joinPump (sid : StreamId)
  | returned
deriving DecidableEq

/-- The behaviour of the execution channel opened by `client.exec_command`:
the two output streams, and the exit status of the remote command (available
from the transport, e.g. paramiko recv_exit_status, whether or not the code
reads it). -/
structure Channel where
  stdoutItems : List StreamItem
  stderrItems : List StreamItem
  exitStatus : Nat
deriving DecidableEq

/-- Everything observable about one `execute` invocation. `raised` is what
propagates to the caller of `execute` as an exception, tagged with the pump it
came from; the return value of the Python function itself is `None`, so the
result record has no status field beyond these observations. -/
structure ExecResult where
  submitted : String
  trace : List ExecEvent
  stdoutActions : List SinkAction
  stderrActions : List SinkAction
  stdoutFailed : Bool
  stderrFailed : Bool
  raised : Option StreamId
deriving DecidableEq

/-- Shallow embedding of `SSHCommandExecutor.execute` (ssh.py lines 29-59).
The statement order is: compose and stringify the command, open the channel
(`exec_command`), close stdin, start both pump threads, join both pump
threads, fall off the end (return `None`). Each pump runs `log_file` on its
stream. An exception in a pump thread is handled by `threading`, printed by
the default excepthook, and never re-raised by `Thread.join`, so nothing is
raised to the caller: `raised := none`. -/
def execute (command : ShellArgs) (user : Option String)
    (shell : Option String) (useSudo : Bool) (ch : Channel) : ExecResult :=
  let line := submittedLine command user shell useSudo
  let out := log_file Level.info ch.stdoutItems
  let err := log_file Level.error ch.stderrItems
  { submitted := line
    trace := [.openChannel, .closeStdin,
              .startPump .stdout, .startPump .stderr,
              .joinPump .stdout, .joinPump .stderr, .returned]
    stdoutActions := out.1
    stderrActions := err.1
    stdoutFailed := out.2
    stderrFailed := err.2
    raised := none }

/- WiFi channel construction (wifi.py). -/

/-- Python truthiness of the `frequency` argument: `if self.frequency:` is
false for `None` and for `0`. -/
def optNatTruthy : Option Nat → Bool
  | none => false
  | some n => n != 0

/-- The `UintegerValue` attribute assignments `WiFiChannel.__init__` performs
on the physical-layer helper (`wifi.py` lines 144-150), in order. The two
`TxPowerStart`/`TxPowerEnd` assignments carry `DoubleValue` floating-point
payloads and are not in this natural-number-valued list; neither is a
frequency-selection attribute. -/
def wifiPhyUintSettings (frequency : Option Nat)
    (channel channelWidth antennas : Nat) : List (String × Nat) :=
  [("ChannelWidth", channelWidth)] ++
    (if optNatTruthy frequency then [("Frequency", frequency.getD 0)]
     else [("ChannelNumber", channel)]) ++
    [("Antennas", antennas),
     ("MaxSupportedTxSpatialStreams", antennas),
     ("MaxSupportedRxSpatialStreams", antennas)]

/-- A frequency-selection attribute assignment: `Frequency` or
`ChannelNumber`. -/
def isFreqSelect (p : String × Nat) : Bool :=
  p.1 = "Frequency" || p.1 = "ChannelNumber"

/-- Whether a stream item is the I/O-error event. -/
def isIoErr : StreamItem → Bool
  | .ioError => true
  | .line _ => false

/- Helper lemmas about the pump and sink-action traces. -/

lemma pumpBody_map_line (lv : Level) (outs : List String) :
    pumpBody lv (outs.map StreamItem.line) =
      (outs.map (SinkAction.write lv), false) := by
  induction outs with
  | nil => rfl
  | cons s rest ih => simp [pumpBody, ih]

lemma pumpBody_no_release (lv : Level) (items : List StreamItem) :
    (pumpBody lv items).1.count SinkAction.release = 0 := by
  induction items with
  | nil => rfl
  | cons i rest ih =>
    cases i <;> simp [pumpBody, List.count_cons, ih]

lemma pumpBody_failed (lv : Level) (items : List StreamItem) :
    (pumpBody lv items).2 = items.any isIoErr := by
  induction items with
  | nil => rfl
  | cons i rest ih =>
    cases i <;> simp [pumpBody, isIoErr, ih]

lemma log_file_release_once (lv : Level) (items : List StreamItem) :
    (log_file lv items).1.count SinkAction.release = 1 := by
  simp [log_file, List.count_cons, List.count_append, pumpBody_no_release]

lemma log_file_release_last (lv : Level) (items : List StreamItem) :
    (log_file lv items).1.getLast? = some SinkAction.release := by
  show ((SinkAction.acquire :: (pumpBody lv items).1) ++
      [SinkAction.release]).getLast? = some SinkAction.release
  rw [List.getLast?_concat]

lemma sinkRecords_cons_acquire (as : List SinkAction) :
    sinkRecords (SinkAction.acquire :: as) = sinkRecords as := by
  simp [sinkRecords]

lemma sinkRecords_cons_write (lv : Level) (s : String) (as : List SinkAction) :
    sinkRecords (SinkAction.write lv s :: as) = (lv, s) :: sinkRecords as := by
  simp [sinkRecords]

lemma sinkRecords_append (as bs : List SinkAction) :
    sinkRecords (as ++ bs) = sinkRecords as ++ sinkRecords bs := by
  simp [sinkRecords, List.filterMap_append]

lemma sinkRecords_writes (lv : Level) (outs : List String) :
    sinkRecords (outs.map (SinkAction.write lv)) =
      outs.map (fun s => (lv, s)) := by
  induction outs with
  | nil => rfl
  | cons s rest ih =>
    simp only [List.map_cons, sinkRecords_cons_write, ih]

lemma sinkRecords_log_file_lines (lv : Level) (outs : List String) :
    sinkRecords (log_file lv (outs.map StreamItem.line)).1 =
      outs.map (fun s => (lv, s)) := by
  show sinkRecords (SinkAction.acquire :: (pumpBody lv
      (outs.map StreamItem.line)).1 ++ [SinkAction.release]) = _
  simp only [pumpBody_map_line]
  rw [sinkRecords_append, sinkRecords_cons_acquire, sinkRecords_writes]
  simp [sinkRecords]

lemma execute_trace_eq (command : ShellArgs) (user shell : Option String)
    (useSudo : Bool) (ch : Channel) :
    (execute command user shell useSudo ch).trace =
      [ExecEvent.openChannel, ExecEvent.closeStdin,
       ExecEvent.startPump .stdout, ExecEvent.startPump .stderr,
       ExecEvent.joinPump .stdout, ExecEvent.joinPump .stderr,
       ExecEvent.returned] := rfl

/- Claim theorems. -/

/-- C1: every invocation of the remote executor's `execute` follows the
prescribed event order: the channel is opened first, its input stream is
closed immediately afterwards (no input is ever sent), both stream pumps are
started before either is waited on, and `execute` returns only after both
pumps have been waited on, the return being the last event. -/
theorem execute_event_order (command : ShellArgs) (user shell : Option String)
    (useSudo : Bool) (ch : Channel) :
    (execute command user shell useSudo ch).trace.indexOf
        ExecEvent.openChannel = 0 ∧
    (execute command user shell useSudo ch).trace.indexOf
        ExecEvent.closeStdin =
      (execute command user shell useSudo ch).trace.indexOf
        ExecEvent.openChannel + 1 ∧
    (∀ a b : StreamId,
      (execute command user shell useSudo ch).trace.indexOf
          (ExecEvent.startPump a) <
        (execute command user shell useSudo ch).trace.indexOf
          (ExecEvent.joinPump b)) ∧
    (∀ b : StreamId,
      (execute command user shell useSudo ch).trace.indexOf
          (ExecEvent.joinPump b) <
        (execute command user shell useSudo ch).trace.indexOf
          ExecEvent.returned) ∧
    (execute command user shell useSudo ch).trace.getLast? =
      some ExecEvent.returned := by
  rw [execute_trace_eq]
  refine ⟨rfl, rfl, ?_, ?_, rfl⟩
  · intro a b
    cases a <;> cases b <;> decide
  · intro b
    cases b <;> decide

/-- C2 counterexample: `execute` does not return a structured outcome
carrying the completion status. Two channels identical except for the remote
exit status produce identical results (so the caller cannot recover the
status), and nothing is raised. -/
theorem execute_no_status_cex :
    execute (ShellArgs.toks ["true"]) none none false
        ⟨[], [], 0⟩ =
      execute (ShellArgs.toks ["true"]) none none false
        ⟨[], [], 1⟩ ∧
    (0 : Nat) ≠ 1 ∧
    (execute (ShellArgs.toks ["true"]) none none false
        ⟨[], [], 0⟩).raised = none :=
  ⟨rfl, by decide, rfl⟩

/-- C2 (amended): `execute` always returns control to the caller after both
pumps are joined, but the value returned is `None`: the result is independent
of the remote exit status, carries no success/failure information, and no
error is raised for pump failures. -/
theorem execute_returns_none_after_join (command : ShellArgs)
    (user shell : Option String) (useSudo : Bool)
    (so se : List StreamItem) (e1 e2 : Nat) :
    execute command user shell useSudo ⟨so, se, e1⟩ =
      execute command user shell useSudo ⟨so, se, e2⟩ ∧
    (execute command user shell useSudo ⟨so, se, e1⟩).raised = none ∧
    (execute command user shell useSudo ⟨so, se, e1⟩).trace.getLast? =
      some ExecEvent.returned := by
  refine ⟨rfl, rfl, ?_⟩
  rw [execute_trace_eq]
  decide

/-- C3: with the sudo-style strategy, a user and no shell, the composed token
vector is `["sudo", "-u", user]` followed by `split(stringify(command))`, the
command round-tripped through the codec; in particular
`command = ["echo","hi"]`, `user = "alice"` yields
`["sudo","-u","alice","echo","hi"]`. -/
theorem sudo_composition (command : ShellArgs) (u : String) :
    composeCommand command (some u) none true =
      ShellArgs.toks (["sudo", "-u", u] ++
        split_shell_arguments (stringify_shell_arguments command)) ∧
    composeCommand (ShellArgs.toks ["echo", "hi"]) (some "alice") none true =
      ShellArgs.toks ["sudo", "-u", "alice", "echo", "hi"] :=
  ⟨rfl, by decide⟩

/-- C6: with the switch-user-style strategy, a user and no shell, the
composed token vector is `["su", user, "-c", stringify(command)]`; in
particular `command = ["echo","hi"]`, `user = "bob"` yields
`["su","bob","-c","echo hi"]`. -/
theorem su_composition (command : ShellArgs) (u : String) :
    composeCommand command (some u) none false =
      ShellArgs.toks ["su", u, "-c", stringify_shell_arguments command] ∧
    composeCommand (ShellArgs.toks ["echo", "hi"]) (some "bob") none false =
      ShellArgs.toks ["su", "bob", "-c", "echo hi"] :=
  ⟨rfl, by decide⟩

/-- C7: with no user, the command is wrapped as
`[shell, "-c", stringify(command)]` exactly when a shell is given, and passes
through unchanged otherwise; in particular `["echo","hi"]` yields the final
line `"echo hi"` with no shell and `"/bin/bash -c 'echo hi'"` with
`/bin/bash` (the quoted line is written here via `squoteChar`). -/
theorem no_elevation_composition (command : ShellArgs) (useSudo : Bool) :
    (composeCommand command none none useSudo =
        ShellArgs.str (stringify_shell_arguments command) ∧
      submittedLine command none none useSudo =
        stringify_shell_arguments command) ∧
    (∀ sh : String,
      composeCommand command none (some sh) useSudo =
        ShellArgs.toks [sh, "-c", stringify_shell_arguments command]) ∧
    submittedLine (ShellArgs.toks ["echo", "hi"]) none none useSudo =
      "echo hi" ∧
    submittedLine (ShellArgs.toks ["echo", "hi"]) none (some "/bin/bash")
        useSudo =
      "/bin/bash -c " ++ String.mk [squoteChar] ++ "echo hi" ++
        String.mk [squoteChar] := by
  refine ⟨⟨rfl, rfl⟩, fun sh => rfl, ?_, ?_⟩ <;> cases useSudo <;> decide

/-- C8: with a user and a shell, under either elevation strategy the tokens
`["-s", shell]` sit immediately after the elevation prefix and before the
strategy suffix, and the token vector is stringified exactly once more to
form the single command line submitted to the transport. -/
theorem shell_flag_insertion (command : ShellArgs) (u sh : String)
    (useSudo : Bool) (ch : Channel) :
    composeCommand command (some u) (some sh) useSudo =
      ShellArgs.toks
        ((if useSudo then ["sudo", "-u", u] else ["su", u]) ++ ["-s", sh] ++
          (if useSudo then
            split_shell_arguments (stringify_shell_arguments command)
           else ["-c", stringify_shell_arguments command])) ∧
    (execute command (some u) (some sh) useSudo ch).submitted =
      stringify_shell_arguments
        (composeCommand command (some u) (some sh) useSudo) := by
  cases useSudo <;> exact ⟨rfl, rfl⟩

/-- C4: for a command producing the lines `outs` on standard output and
`errs` on standard error, the stdout sink receives exactly the records
`(info, line)` in original order, the stderr sink exactly `(error, line)` in
original order, and in the event order of `execute` both pumps are joined
before the return, so the counts are final when `execute` returns. -/
theorem pump_records_exact (command : ShellArgs) (user shell : Option String)
    (useSudo : Bool) (outs errs : List String) (status : Nat) :
    sinkRecords (execute command user shell useSudo
        ⟨outs.map StreamItem.line, errs.map StreamItem.line,
          status⟩).stdoutActions =
      outs.map (fun s => (Level.info, s)) ∧
    sinkRecords (execute command user shell useSudo
        ⟨outs.map StreamItem.line, errs.map StreamItem.line,
          status⟩).stderrActions =
      errs.map (fun s => (Level.error, s)) ∧
    (execute command user shell useSudo
        ⟨outs.map StreamItem.line, errs.map StreamItem.line,
          status⟩).trace.indexOf (ExecEvent.joinPump .stdout) <
      (execute command user shell useSudo
        ⟨outs.map StreamItem.line, errs.map StreamItem.line,
          status⟩).trace.indexOf ExecEvent.returned ∧
    (execute command user shell useSudo
        ⟨outs.map StreamItem.line, errs.map StreamItem.line,
          status⟩).trace.indexOf (ExecEvent.joinPump .stderr) <
      (execute command user shell useSudo
        ⟨outs.map StreamItem.line, errs.map StreamItem.line,
          status⟩).trace.indexOf ExecEvent.returned := by
  refine ⟨sinkRecords_log_file_lines Level.info outs,
    sinkRecords_log_file_lines Level.error errs, ?_, ?_⟩ <;>
    rw [execute_trace_eq] <;> decide

/-- C5 counterexample: a stream pump hitting an I/O error is silently
swallowed. With an I/O error on the stdout stream, the stdout pump fails, yet
nothing is raised to the caller of `execute`. -/
theorem pump_error_not_raised_cex :
    (execute (ShellArgs.toks ["cat"]) none none false
        ⟨[StreamItem.ioError], [], 0⟩).stdoutFailed = true ∧
    (execute (ShellArgs.toks ["cat"]) none none false
        ⟨[StreamItem.ioError], [], 0⟩).raised = none :=
  ⟨rfl, rfl⟩

/-- C5 (amended): an I/O error in a stream pump interrupts that pump's loop
(the failure flag records exactly whether the stream held an error) and the
sink is still released, but the error is never raised to the caller:
`execute` joins both pump threads and returns normally with nothing
propagated. -/
theorem pump_error_swallowed (command : ShellArgs) (user shell : Option String)
    (useSudo : Bool) (ch : Channel) :
    (execute command user shell useSudo ch).raised = none ∧
    (execute command user shell useSudo ch).stdoutFailed =
      ch.stdoutItems.any isIoErr ∧
    (execute command user shell useSudo ch).stderrFailed =
      ch.stderrItems.any isIoErr ∧
    (execute command user shell useSudo ch).stdoutActions.count
      SinkAction.release = 1 ∧
    (execute command user shell useSudo ch).stderrActions.count
      SinkAction.release = 1 :=
  ⟨rfl, pumpBody_failed Level.info ch.stdoutItems,
    pumpBody_failed Level.error ch.stderrItems,
    log_file_release_once Level.info ch.stdoutItems,
    log_file_release_once Level.error ch.stderrItems⟩

/-- C9: in every `execute` invocation, each pump's sink release action runs
exactly once and is the last action on that sink — for every channel
behaviour, including streams whose read loop is interrupted by an I/O error
partway through. -/
theorem sink_release_once (command : ShellArgs) (user shell : Option String)
    (useSudo : Bool) (ch : Channel) :
    (execute command user shell useSudo ch).stdoutActions.count
      SinkAction.release = 1 ∧
    (execute command user shell useSudo ch).stdoutActions.getLast? =
      some SinkAction.release ∧
    (execute command user shell useSudo ch).stderrActions.count
      SinkAction.release = 1 ∧
    (execute command user shell useSudo ch).stderrActions.getLast? =
      some SinkAction.release :=
  ⟨log_file_release_once Level.info ch.stdoutItems,
    log_file_release_last Level.info ch.stdoutItems,
    log_file_release_once Level.error ch.stderrItems,
    log_file_release_last Level.error ch.stderrItems⟩

/-- C10: every `WiFiChannel` construction sets exactly one
frequency-selection attribute on the physical-layer helper: a truthy
`frequency` (any nonzero value) sets `Frequency` to it and makes the
`channel` argument irrelevant to the configuration, while `frequency = None`
or `frequency = 0` sets `ChannelNumber` to the `channel` argument. -/
theorem wifi_frequency_selection :
    (∀ (f : Option Nat) (c cw ant : Nat),
      ((wifiPhyUintSettings f c cw ant).filter isFreqSelect).length = 1) ∧
    (∀ (n c cw ant : Nat),
      (wifiPhyUintSettings (some (n + 1)) c cw ant).filter isFreqSelect =
        [("Frequency", n + 1)] ∧
      wifiPhyUintSettings (some (n + 1)) c cw ant =
        wifiPhyUintSettings (some (n + 1)) 0 cw ant) ∧
    (∀ (c cw ant : Nat),
      (wifiPhyUintSettings none c cw ant).filter isFreqSelect =
        [("ChannelNumber", c)] ∧
      (wifiPhyUintSettings (some 0) c cw ant).filter isFreqSelect =
        [("ChannelNumber", c)]) := by
  refine ⟨?_, fun n c cw ant => ⟨rfl, rfl⟩, fun c cw ant => ⟨rfl, rfl⟩⟩
  rintro (_ | (_ | n)) c cw ant <;> rfl
